import Mathlib

/-!
Verification development for the `mac-host-assess` repository: a shallow
embedding of the plan data structure (`src/mac_assess/state.py`), the
command runner and output formatter (`src/mac_assess/tools/base.py`), and
the planner/executor/tools/advance/reporter phase loop
(`src/mac_assess/agent.py`), together with theorems settling the spec's
claims about them.
-/

namespace MacAssess

/-! ## Command runner (`tools/base.py`) -/

/-- Structure `CommandResult` from `tools/base.py`: stdout, stderr and the process
return code.  The return code is an `Int` (Python `int`; timeouts encode
as `-1`). -/
structure CommandResult where
  stdout : String
  stderr : String
  returncode : Int
deriving DecidableEq, Repr

/-- Property `CommandResult.success`: `returncode == 0`. -/
def CommandResult.success (r : CommandResult) : Bool :=
  r.returncode == 0

/-- Property `CommandResult.output`: Python `self.stdout or self.stderr` —
stdout if non-empty, else stderr. -/
def CommandResult.output (r : CommandResult) : String :=
  if r.stdout == "" then r.stderr else r.stdout

/-- Outcome of the underlying `subprocess.run` call, as seen by
`run_command`'s `try`/`except` structure: the subprocess either completes
with captured streams and an exit code, raises `TimeoutExpired`, or raises
some other exception carrying a message (`str(e)`). -/
inductive ExecOutcome where
  | completed (stdout stderr : String) (code : Int)
  | timedOut
  | failed (msg : String)
deriving DecidableEq, Repr

/-- Function `run_command` from `tools/base.py`, as a total function of the
subprocess outcome: a normal completion is returned verbatim; a
`TimeoutExpired` becomes `("", "Command timed out after {timeout}s", -1)`;
any other exception becomes `("", str(e), -1)`.  Totality of this function
embeds the "never raises" contract. -/
def run_command (outcome : ExecOutcome) (timeout : Nat) : CommandResult :=
  match outcome with
  | .completed stdout stderr code =>
      { stdout := stdout, stderr := stderr, returncode := code }
  | .timedOut =>
      { stdout := ""
        stderr := "Command timed out after " ++ toString timeout ++ "s"
        returncode := -1 }
  | .failed msg =>
      { stdout := "", stderr := msg, returncode := -1 }

/-- Function `format_command_output` from `tools/base.py`.  Python truthiness of a
string is non-emptiness; `result.success` is `returncode == 0`; the final
`output or "(no output)"` yields the sentinel exactly when the accumulated
output is empty. -/
def format_command_output (result : CommandResult)
    (include_stderr include_returncode : Bool) : String :=
  let output := result.stdout
  let output :=
    if include_stderr && (result.stderr != "") then
      if output != "" then output ++ "\nSTDERR: " ++ result.stderr
      else result.stderr
    else output
  let output :=
    if include_returncode && !result.success then
      output ++ "\nReturn code: " ++ toString result.returncode
    else output
  if output == "" then "(no output)" else output

/-! ## Plan (`state.py`) -/

/-- Model `AssessmentPlan` from `state.py`.  `current_step` starts at `0` and is
only ever incremented (by `advance`), so it is modelled as `Nat`. -/
structure AssessmentPlan where
  objective : String
  steps : List String
  current_step : Nat
  findings : List String
deriving DecidableEq, Repr

/-- Constructor as used by `planner_node`:
`AssessmentPlan(objective=..., steps=...)` with the field defaults
`current_step = 0`, `findings = []`. -/
def AssessmentPlan.mkPlan (objective : String) (steps : List String) :
    AssessmentPlan :=
  { objective := objective, steps := steps, current_step := 0, findings := [] }

/-- Method `AssessmentPlan.next_step`: `steps[current_step]` when
`current_step < len(steps)`, else `None`. -/
def AssessmentPlan.next_step (p : AssessmentPlan) : Option String :=
  if h : p.current_step < p.steps.length then
    some (p.steps.get ⟨p.current_step, h⟩)
  else
    none

/-- Method `AssessmentPlan.advance`: `current_step += 1`, unconditionally. -/
def AssessmentPlan.advance (p : AssessmentPlan) : AssessmentPlan :=
  { p with current_step := p.current_step + 1 }

/-- Method `AssessmentPlan.is_complete`: `current_step >= len(steps)`. -/
def AssessmentPlan.is_complete (p : AssessmentPlan) : Bool :=
  decide (p.steps.length ≤ p.current_step)

/-- Method `advance` iterated `n` times (the only mutation sequence the plan
supports). -/
def AssessmentPlan.advanceN (p : AssessmentPlan) : Nat → AssessmentPlan
  | 0 => p
  | n + 1 => (p.advanceN n).advance

/-! ## Python string primitives

The parser relies on a handful of Python `str` methods.  They are
implemented here over the character list of a `String` by structural
recursion, so that every use is computable by the kernel; each mirrors
the CPython behaviour on the ASCII text the agent handles. -/

/-- Python `str.isspace` membership for the ASCII whitespace characters
relevant to `str.strip()`. -/
def isPySpace (c : Char) : Bool :=
  c == ' ' || c == '\t' || c == '\n' || c == '\r' ||
    c == '\x0b' || c == '\x0c'

/-- Drop leading Python whitespace from a character list. -/
def stripLeft : List Char → List Char
  | [] => []
  | c :: cs => if isPySpace c then stripLeft cs else c :: cs

/-- Python `s.strip()`: drop leading and trailing whitespace. -/
def pyStrip (s : String) : String :=
  String.mk ((stripLeft (stripLeft s.data.reverse).reverse))

/-- Split a character list at every occurrence of `sep` (Python
`s.split(sep)` for a one-character separator: empty pieces are kept). -/
def splitChar (sep : Char) : List Char → List (List Char)
  | [] => [[]]
  | c :: cs =>
    let r := splitChar sep cs
    if c == sep then [] :: r
    else
      match r with
      | [] => [[c]]
      | h :: t => (c :: h) :: t

/-- Python `s.split("\n")` as a list of strings. -/
def pySplitLines (s : String) : List String :=
  (splitChar '\n' s.data).map String.mk

/-- Python `s.startswith(pre)` on character lists. -/
def pyStartsWithL : List Char → List Char → Bool
  | [], _ => true
  | _ :: _, [] => false
  | p :: ps, c :: cs => p == c && pyStartsWithL ps cs

/-- Python `s.startswith(pre)`. -/
def pyStartsWith (s pre : String) : Bool :=
  pyStartsWithL pre.data s.data

/-- Worker for `pyReplace`, fuelled by the input length so the recursion
is structural: at each step either the (non-empty) pattern is consumed
and replaced, or one character is copied. -/
def pyReplaceFuel (pat rep : List Char) : Nat → List Char → List Char
  | 0, s => s
  | _ + 1, [] => []
  | fuel + 1, c :: cs =>
    if pyStartsWithL pat (c :: cs) && decide (0 < pat.length) then
      rep ++ pyReplaceFuel pat rep fuel (cs.drop (pat.length - 1))
    else
      c :: pyReplaceFuel pat rep fuel cs

/-- Python `s.replace(pat, rep)` for a non-empty pattern: replace every
non-overlapping occurrence, scanning left to right. -/
def pyReplace (s pat rep : String) : String :=
  String.mk (pyReplaceFuel pat.data rep.data s.data.length s.data)

/-- Everything after the first `'.'` of a character list, if any. -/
def afterFirstDot : List Char → Option (List Char)
  | [] => none
  | c :: cs => if c == '.' then some cs else afterFirstDot cs

/-! ## Plan parsing (`planner_node`, `agent.py` lines 66-87) -/

/-- Python `s.split(".", 1)[-1]`: everything after the first `"."`, or the
whole string when it has no `"."`. -/
def splitDotRest (s : String) : String :=
  match afterFirstDot s.data with
  | some rest => String.mk rest
  | none => s

/-- Python `step[0].isdigit()` (false on the empty string; the caller
guarantees non-emptiness). -/
def firstIsDigit (s : String) : Bool :=
  match s.data with
  | [] => false
  | c :: _ => c.isDigit

/-- The body of the step-line branch of the parser loop: `step =
line.strip()`; if it starts with a digit, drop through the first `"."` and
strip; else if it starts with `"-"`, drop it and strip; append the result
when non-empty.  Returns `none` when nothing is appended.  Callers only
reach this with `line.strip()` non-empty (the Python guard), which the
`step == ""` test reproduces. -/
def parseStepLine (line : String) : Option String :=
  let step := pyStrip line
  if step == "" then none
  else
    let step :=
      if firstIsDigit step then pyStrip (splitDotRest step)
      else if pyStartsWith step "-" then pyStrip (String.mk (step.data.drop 1))
      else step
    if step == "" then none else some step

/-- The `for line in lines` loop of `planner_node`: scans for an
`OBJECTIVE:` line (keeping the last one, all occurrences of the marker
removed and the rest stripped), switches into step parsing at a `STEPS:`
line, and collects cleaned step lines.  Returns `(objective, steps)`. -/
def parsePlanLines : List String → String → Bool → List String →
    String × List String
  | [], objective, _, steps => (objective, steps)
  | line :: rest, objective, parsing_steps, steps =>
    if pyStartsWith line "OBJECTIVE:" then
      parsePlanLines rest (pyStrip (pyReplace line "OBJECTIVE:" ""))
        parsing_steps steps
    else if pyStartsWith line "STEPS:" then
      parsePlanLines rest objective true steps
    else if parsing_steps && (pyStrip line != "") then
      parsePlanLines rest objective parsing_steps
        (steps ++ (parseStepLine line).toList)
    else
      parsePlanLines rest objective parsing_steps steps

/-- Plan construction from the planner LLM's free-text response
(`agent.py` lines 67-87): split the stripped content on newlines, run the
parsing loop, and default the objective to `"Security assessment"` when
empty. -/
def parsePlan (content : String) : AssessmentPlan :=
  let lines := pySplitLines (pyStrip content)
  let parsed := parsePlanLines lines "" false []
  AssessmentPlan.mkPlan
    (if parsed.1 == "" then "Security assessment" else parsed.1) parsed.2

/-! ## Agent loop (`agent.py`)

The transcript is the `messages` list of `AgentState`, merged by the
`add_messages` reducer: each node returns the existing list plus its new
entries, and the reducer appends exactly the new entries, so nodes are
modelled as appending to the list.  The LLM is an external collaborator:
it is modelled as a function from the (0-based) index of the LLM call in
the run to the response message, and tool execution as a function from
the requested tool call to the result text. -/

/-- A tool invocation requested by the LLM: tool name plus a string
argument mapping. -/
structure ToolCall where
  name : String
  args : List (String × String)
deriving DecidableEq, Repr

/-- A transcript entry.  Only AI messages carry `tool_calls` (in
LangChain, `hasattr(msg, "tool_calls")` holds for `AIMessage` only among
the message kinds the loop appends). -/
inductive Msg where
  | human (content : String)
  | ai (content : String) (tool_calls : List ToolCall)
  | tool (content : String)
deriving DecidableEq, Repr

/-- Content of a message. -/
def Msg.content : Msg → String
  | .human c => c
  | .ai c _ => c
  | .tool c => c

/-- Test `hasattr(last_message, "tool_calls") and last_message.tool_calls` from
`should_continue`: true exactly for an AI message with a non-empty
tool-call list. -/
def Msg.hasToolCalls : Msg → Bool
  | .ai _ tool_calls => tool_calls != []
  | _ => false

/-- The tool calls of a message (empty for non-AI messages). -/
def Msg.toolCalls : Msg → List ToolCall
  | .ai _ tool_calls => tool_calls
  | _ => []

/-- State `AgentState` from `state.py`, extended with run instrumentation: `calls`
counts LLM invocations (indexing into the mocked LLM), and
`tool_executions` / `reporter_invocations` count, without influencing any
behaviour, how often a tool was executed and the reporter node ran. -/
structure AgentState where
  messages : List Msg
  plan : Option AssessmentPlan
  findings : List String
  phase : String
  calls : Nat
  tool_executions : Nat
  reporter_invocations : Nat
deriving DecidableEq, Repr

/-- The initial state built by `run_assessment` in `cli.py`: one human
message holding the objective, no plan, phase `"planning"`. -/
def initialState (objective : String) : AgentState :=
  { messages := [.human objective], plan := none, findings := [],
    phase := "planning", calls := 0, tool_executions := 0,
    reporter_invocations := 0 }

/-- Node `planner_node`: invoke the LLM, parse its content into a plan, set
phase to `"executing"`, and append the response (and only the response) to
the transcript. -/
def planner_node (llm : Nat → Msg) (state : AgentState) : AgentState :=
  let response := llm state.calls
  let plan := parsePlan response.content
  { state with
    plan := some plan
    phase := "executing"
    messages := state.messages ++ [response]
    calls := state.calls + 1 }

/-- The step text interpolated into the executor prompt:
`plan.next_step() if plan else "Perform a general security assessment"`,
with Python rendering `None` as the string `"None"` inside the f-string. -/
def currentStepText (plan : Option AssessmentPlan) : String :=
  match plan with
  | none => "Perform a general security assessment"
  | some p =>
    match p.next_step with
    | some s => s
    | none => "None"

/-- The executor's step prompt (`agent.py` lines 105-108). -/
def stepPrompt (plan : Option AssessmentPlan) : String :=
  "Current assessment step: " ++ currentStepText plan ++
    "\n\nExecute this step using the available tools. Be thorough and note any security-relevant findings.\nWhen done with this step, summarize what you found before moving on."

/-- Node `executor_node`: invoke the tool-enabled LLM on the transcript plus a
step prompt, and append both the step prompt and the response. -/
def executor_node (llm : Nat → Msg) (state : AgentState) : AgentState :=
  let prompt := stepPrompt state.plan
  let response := llm state.calls
  { state with
    messages := state.messages ++ [.human prompt, response]
    calls := state.calls + 1 }

/-- The fixed report prompt of `reporter_node` (`agent.py` lines 128-138),
abbreviated to its first line; only its identity as a single appended
human message matters to the claims. -/
def reportPrompt : String :=
  "Based on all the findings from this assessment, generate a security report."

/-- Node `reporter_node`: invoke the LLM on the transcript plus the report
prompt, append both, and set phase to `"complete"`. -/
def reporter_node (llm : Nat → Msg) (state : AgentState) : AgentState :=
  let response := llm state.calls
  { state with
    phase := "complete"
    messages := state.messages ++ [.human reportPrompt, response]
    calls := state.calls + 1
    reporter_invocations := state.reporter_invocations + 1 }

/-- The `ToolNode(ALL_TOOLS)` node: for each tool call carried by the last
message, append one tool-result message, in the order requested. -/
def tools_node (toolExec : ToolCall → String) (state : AgentState) :
    AgentState :=
  let tcs := (state.messages.getLastD (.human "")).toolCalls
  { state with
    messages := state.messages ++ tcs.map (fun tc => .tool (toolExec tc))
    tool_executions := state.tool_executions + tcs.length }

/-- Node `advance_plan`: `plan.advance()` when a plan exists. -/
def advance_plan (state : AgentState) : AgentState :=
  match state.plan with
  | some p => { state with plan := some p.advance }
  | none => state

/-- The four routes `should_continue` can return. -/
inductive Route where
  | tools
  | advance
  | report
  | executor
deriving DecidableEq, Repr

/-- Function `should_continue` (`agent.py` lines 155-173) as a function of the last
transcript message, the plan and the phase marker: tool calls first, then
plan completion, then the `"executing"` phase marker, then the executor
fallback. -/
def should_continue (last : Msg) (plan : Option AssessmentPlan)
    (phase : String) : Route :=
  if last.hasToolCalls then .tools
  else if (match plan with
           | some p => p.is_complete
           | none => false) then .report
  else if phase == "executing" then .advance
  else .executor

/-- The nodes of the compiled graph, plus the `END` sentinel. -/
inductive Node where
  | planner
  | executor
  | tools
  | advance
  | reporter
  | stop
deriving DecidableEq, Repr

/-- The conditional-edge mapping of `create_agent_graph`: `"tools" →
tools`, `"advance" → advance`, `"report" → reporter`, `"executor" →
executor`. -/
def routeTarget : Route → Node
  | .tools => .tools
  | .advance => .advance
  | .report => .reporter
  | .executor => .executor

/-- One transition of the compiled graph (`create_agent_graph`): run the
node, then follow its outgoing edge — `planner → executor`,
`executor → should_continue`, `tools → executor`, `advance → executor`,
`reporter → END`. -/
def graphStep (llm : Nat → Msg) (toolExec : ToolCall → String)
    (state : AgentState) : Node → AgentState × Node
  | .planner => (planner_node llm state, .executor)
  | .executor =>
    let state := executor_node llm state
    (state,
     routeTarget
       (should_continue (state.messages.getLastD (.human "")) state.plan
         state.phase))
  | .tools => (tools_node toolExec state, .executor)
  | .advance => (advance_plan state, .executor)
  | .reporter => (reporter_node llm state, .stop)
  | .stop => (state, .stop)

/-- Run the graph for at most `fuel` transitions from a node, stopping at
`END`. -/
def runGraph (llm : Nat → Msg) (toolExec : ToolCall → String) :
    Nat → AgentState → Node → AgentState × Node
  | 0, state, node => (state, node)
  | fuel + 1, state, node =>
    if node == Node.stop then (state, node)
    else
      let (state, node) := graphStep llm toolExec state node
      runGraph llm toolExec fuel state node

/-! ## The mocked end-to-end scenario (spec §8)

Objective "list SSH keys"; the mocked LLM plans one step
`find_ssh_keys`, requests the tool `find_ssh_keys` with no arguments on
its first executor turn, and answers in plain text with no tool calls on
every later turn. -/

/-- The mocked LLM, indexed by LLM-call number: call 0 is the planner
call, call 1 the first executor call, later calls return plain text with
no tool calls. -/
def mockLLM : Nat → Msg
  | 0 => .ai "OBJECTIVE: List SSH keys\nSTEPS:\n1. find_ssh_keys" []
  | 1 => .ai "" [{ name := "find_ssh_keys", args := [] }]
  | _ => .ai "Step complete; no further tool calls." []

/-- The mocked tool executor: returns a fixed result text for
`find_ssh_keys`. -/
def mockToolExec (tc : ToolCall) : String :=
  if tc.name == "find_ssh_keys" then "=== SSH Keys ===\nid_rsa id_rsa.pub"
  else "Unknown tool"

/-- The full scenario run: initial CLI state with objective
`"list SSH keys"`, entry point `planner`, ample fuel. -/
def scenarioRun : AgentState × Node :=
  runGraph mockLLM mockToolExec 20 (initialState "list SSH keys") .planner

/-- The dispatch order as the spec words it (§4.4, restated by claim C3),
written independently of `should_continue` for the refinement comparison:
(1) one or more requested tool invocations route to the tools node; (2)
else a complete plan routes to the reporter; (3) else the `"executing"`
phase marker routes to the advance node; (4) else the executor is
re-invoked.  The auxiliary `planIsComplete` reads "the Plan is complete"
(an absent plan is not complete). -/
def planIsComplete : Option AssessmentPlan → Bool
  | some p => p.is_complete
  | none => false

/-- The spec's dispatch function; see `planIsComplete` above. -/
def specDispatch (last : Msg) (plan : Option AssessmentPlan)
    (phase : String) : Route :=
  if last.toolCalls ≠ [] then .tools
  else if planIsComplete plan = true then .report
  else if phase = "executing" then .advance
  else .executor

/-! ## Theorems -/

/-- Helper: iterating `advance` `n` times leaves the objective, steps and
findings unchanged and shifts the cursor by exactly `n`. -/
theorem AssessmentPlan.advanceN_fields (p : AssessmentPlan) (n : Nat) :
    (p.advanceN n).objective = p.objective ∧
    (p.advanceN n).steps = p.steps ∧
    (p.advanceN n).findings = p.findings ∧
    (p.advanceN n).current_step = p.current_step + n := by
  induction n with
  | zero => simp [AssessmentPlan.advanceN]
  | succ n ih =>
    obtain ⟨h1, h2, h3, h4⟩ := ih
    simp only [AssessmentPlan.advanceN, AssessmentPlan.advance]
    exact ⟨h1, h2, h3, by omega⟩

/-- C1 counterexample: the zero-step plan (as the planner constructs it
from an empty step list) is complete with `cursor = 0 = len(steps)`, yet
`advance()` on it is not a no-op and pushes the cursor strictly past
`len(steps)`, violating the claimed invariant `cursor ≤ len(steps)`. -/
theorem advance_on_complete_plan_counterexample :
    (AssessmentPlan.mkPlan "Security assessment" []).is_complete = true ∧
    (AssessmentPlan.mkPlan "Security assessment" []).advance ≠
      AssessmentPlan.mkPlan "Security assessment" [] ∧
    ¬ ((AssessmentPlan.mkPlan "Security assessment" []).advance.current_step ≤
        (AssessmentPlan.mkPlan "Security assessment" []).steps.length) := by
  decide

/-- C1 amended: `advance()` preserves the invariant
`cursor ≤ len(steps)` whenever the plan is not yet complete; applied to a
complete plan it is not idempotent — it increments the cursor by one,
strictly past `len(steps)` — though the plan stays complete. -/
theorem advance_invariant (p : AssessmentPlan) :
    (p.is_complete = false →
      p.advance.current_step ≤ p.advance.steps.length) ∧
    (p.is_complete = true →
      p.advance.current_step = p.current_step + 1 ∧
      p.steps.length < p.advance.current_step ∧
      p.advance.is_complete = true) := by
  obtain ⟨o, steps, cur, f⟩ := p
  simp only [AssessmentPlan.is_complete, AssessmentPlan.advance,
    decide_eq_false_iff_not, decide_eq_true_eq, Nat.not_le]
  exact ⟨fun h => by omega, fun h => ⟨trivial, by omega, by omega⟩⟩

/-- Witness for `advance_invariant` at concrete inputs. -/
theorem advance_invariant_witness :
    (AssessmentPlan.mkPlan "x" ["a"]).advance.current_step ≤
      (AssessmentPlan.mkPlan "x" ["a"]).advance.steps.length ∧
    (AssessmentPlan.mkPlan "y" []).advance.is_complete = true :=
  ⟨(advance_invariant (AssessmentPlan.mkPlan "x" ["a"])).1 (by decide),
   ((advance_invariant (AssessmentPlan.mkPlan "y" [])).2 (by decide)).2.2⟩

/-- C7 counterexample: the plan reached by advancing the complete
zero-step plan has `is_complete() = true` while `cursor = 1 ≠ 0 =
len(steps)`, so completion is not equivalent to `cursor == len(steps)`
over all plans. -/
theorem is_complete_iff_counterexample :
    (AssessmentPlan.mkPlan "Security assessment" []).advance.is_complete =
      true ∧
    (AssessmentPlan.mkPlan "Security assessment" []).advance.current_step ≠
      (AssessmentPlan.mkPlan "Security assessment" []).advance.steps.length := by
  decide

/-- C7 amended: `is_complete()` is true iff `cursor ≥ len(steps)` (the
code's comparison); restricted to plans satisfying `cursor ≤ len(steps)`
this is equivalent to `cursor == len(steps)`, and any plan with zero
steps is complete. -/
theorem is_complete_iff_cursor_ge (p : AssessmentPlan) :
    (p.is_complete = true ↔ p.steps.length ≤ p.current_step) ∧
    (p.current_step ≤ p.steps.length →
      (p.is_complete = true ↔ p.current_step = p.steps.length)) ∧
    (p.steps = [] → p.is_complete = true) := by
  refine ⟨by simp [AssessmentPlan.is_complete], fun h => ?_, fun h => ?_⟩
  · simp only [AssessmentPlan.is_complete, decide_eq_true_eq]
    omega
  · simp [AssessmentPlan.is_complete, h]

/-- Witness for `is_complete_iff_cursor_ge` at concrete inputs. -/
theorem is_complete_iff_cursor_ge_witness :
    ((AssessmentPlan.mkPlan "x" ["a"]).is_complete = true ↔
      (AssessmentPlan.mkPlan "x" ["a"]).current_step =
        (AssessmentPlan.mkPlan "x" ["a"]).steps.length) ∧
    (AssessmentPlan.mkPlan "y" []).is_complete = true :=
  ⟨(is_complete_iff_cursor_ge (AssessmentPlan.mkPlan "x" ["a"])).2.1
      (by decide),
   (is_complete_iff_cursor_ge (AssessmentPlan.mkPlan "y" [])).2.2 rfl⟩

/-- C8: the steps list, objective and findings of an `AssessmentPlan` are
never modified after creation: `advance`, the only mutating operation,
increments `current_step` by exactly one and leaves every other field
unchanged, and hence any sequence of `n` advances leaves them unchanged
while moving the cursor by exactly `n`. -/
theorem advance_frame (p : AssessmentPlan) (n : Nat) :
    p.advance.objective = p.objective ∧
    p.advance.steps = p.steps ∧
    p.advance.findings = p.findings ∧
    p.advance.current_step = p.current_step + 1 ∧
    (p.advanceN n).objective = p.objective ∧
    (p.advanceN n).steps = p.steps ∧
    (p.advanceN n).findings = p.findings ∧
    (p.advanceN n).current_step = p.current_step + n := by
  obtain ⟨h1, h2, h3, h4⟩ := p.advanceN_fields n
  exact ⟨rfl, rfl, rfl, rfl, h1, h2, h3, h4⟩

/-- C9: plan completion is monotone — once `is_complete()` holds, it
still holds after any further sequence of `advance()` calls, the cursor
climbing past `len(steps)` notwithstanding. -/
theorem is_complete_monotone (p : AssessmentPlan) (n : Nat)
    (h : p.is_complete = true) : (p.advanceN n).is_complete = true := by
  obtain ⟨-, h2, -, h4⟩ := p.advanceN_fields n
  simp only [AssessmentPlan.is_complete, decide_eq_true_eq] at h ⊢
  rw [h2, h4]
  omega

/-- Witness for `is_complete_monotone` at a concrete input. -/
theorem is_complete_monotone_witness :
    ((AssessmentPlan.mkPlan "list SSH keys" []).advanceN 3).is_complete =
      true :=
  is_complete_monotone (AssessmentPlan.mkPlan "list SSH keys" []) 3
    (by decide)

/-- C4: `run_command` is a total function of the subprocess outcome
(never raises).  A normal exit yields the captured streams and exit code
verbatim; a timeout yields empty stdout, a stderr message containing the
configured timeout value, and return code `-1`; any other failure yields
the same shape with the exception text as stderr. -/
theorem run_command_never_raises (t : Nat) :
    (∀ out err code, run_command (.completed out err code) t =
      { stdout := out, stderr := err, returncode := code }) ∧
    (run_command .timedOut t).stdout = "" ∧
    (run_command .timedOut t).returncode = -1 ∧
    (∃ a b, (run_command .timedOut t).stderr = a ++ toString t ++ b) ∧
    (∀ msg, run_command (.failed msg) t =
      { stdout := "", stderr := msg, returncode := -1 }) :=
  ⟨fun _ _ _ => rfl, rfl, rfl,
   ⟨"Command timed out after ", "s", rfl⟩, fun _ => rfl⟩

/-- C6 counterexample: with empty stdout, non-empty stderr and a non-zero
return code, the default-option formatting is the stderr text *plus* a
return-code line — not the stderr text alone. -/
theorem format_output_counterexample :
    format_command_output
        { stdout := "", stderr := "err", returncode := 1 } true true ≠
      "err" ∧
    format_command_output
        { stdout := "", stderr := "err", returncode := 1 } true true =
      "err\nReturn code: 1" := by
  decide

/-- C6 amended: with empty stdout, non-empty stderr and a zero return
code, the default-option formatting is exactly the stderr text; whenever
the return code is non-zero the formatted output carries an explicit
`"Return code: <rc>"` indicator (appended after the stream text, so the
stderr-only case gains that suffix). -/
theorem format_output_stderr_and_returncode (r : CommandResult) :
    (r.stdout = "" → r.stderr ≠ "" → r.returncode = 0 →
      format_command_output r true true = r.stderr) ∧
    (r.returncode ≠ 0 →
      ∃ pre, format_command_output r true true =
        pre ++ "\nReturn code: " ++ toString r.returncode) := by
  obtain ⟨out, err, rc⟩ := r
  constructor
  · intro h0 h1 h2
    subst h0 h2
    simp [format_command_output, CommandResult.success, h1]
  · intro h
    have hsucc : CommandResult.success ⟨out, err, rc⟩ = false := by
      simp [CommandResult.success]
      exact h
    simp only [format_command_output, hsucc, Bool.not_false, Bool.and_true,
      if_true]
    split
    · split
      · refine ⟨out ++ "\nSTDERR: " ++ err, ?_⟩
        split
        · next heq =>
          exfalso
          have := congrArg String.length (by simpa using heq)
          simp [String.length_append] at this
          exact absurd this.1.2 (by decide)
        · rfl
      · refine ⟨err, ?_⟩
        split
        · next heq =>
          exfalso
          have := congrArg String.length (by simpa using heq)
          simp [String.length_append] at this
          exact absurd this.1.2 (by decide)
        · rfl
    · refine ⟨out, ?_⟩
      split
      · next heq =>
        exfalso
        have := congrArg String.length (by simpa using heq)
        simp [String.length_append] at this
        exact absurd this.1.2 (by decide)
      · rfl

/-- Witness for `format_output_stderr_and_returncode` at concrete
inputs. -/
theorem format_output_stderr_and_returncode_witness :
    format_command_output { stdout := "", stderr := "err", returncode := 0 }
        true true = "err" ∧
    ∃ pre,
      format_command_output { stdout := "out", stderr := "", returncode := 5 }
          true true =
        pre ++ "\nReturn code: " ++ toString (5 : Int) :=
  ⟨(format_output_stderr_and_returncode
      { stdout := "", stderr := "err", returncode := 0 }).1 rfl (by decide)
      rfl,
   (format_output_stderr_and_returncode
      { stdout := "out", stderr := "", returncode := 5 }).2 (by decide)⟩

/-- Helper: the Python idiom `output or "(no output)"` (modelled as an
`if` on emptiness) never yields the empty string. -/
theorem ifEmptySentinel_ne (s : String) :
    (if (s == "") = true then "(no output)" else s) ≠ "" := by
  by_cases h : s = ""
  · subst h
    decide
  · simp [h]

/-- C10: `format_command_output` never returns the empty string, and on a
result with empty stdout, empty stderr and return code `0` (default
options) it returns the sentinel `"(no output)"`. -/
theorem format_output_never_empty :
    (∀ (r : CommandResult) (b1 b2 : Bool),
      format_command_output r b1 b2 ≠ "") ∧
    (∀ r : CommandResult, r.stdout = "" → r.stderr = "" → r.returncode = 0 →
      format_command_output r true true = "(no output)") := by
  constructor
  · intro r b1 b2
    show (if (_ == "") = true then "(no output)" else _) ≠ ""
    exact ifEmptySentinel_ne _
  · intro r h0 h1 h2
    obtain ⟨out, err, rc⟩ := r
    subst h0 h1 h2
    rfl

/-- Witness for `format_output_never_empty` at a concrete input. -/
theorem format_output_never_empty_witness :
    format_command_output { stdout := "", stderr := "", returncode := 0 }
        true true = "(no output)" :=
  format_output_never_empty.2
    { stdout := "", stderr := "", returncode := 0 } rfl rfl rfl

/-- Helper: the parsing loop never changes the objective accumulator when
no line starts with `OBJECTIVE:`. -/
theorem parsePlanLines_fst_of_no_objective :
    ∀ (lines : List String) (objective : String) (ps : Bool)
      (steps : List String),
      (lines.all fun l => !(pyStartsWith l "OBJECTIVE:")) = true →
      (parsePlanLines lines objective ps steps).1 = objective := by
  intro lines
  induction lines with
  | nil =>
    intro objective ps steps _
    rfl
  | cons line rest ih =>
    intro objective ps steps h
    rw [List.all_cons, Bool.and_eq_true] at h
    obtain ⟨h1, h2⟩ := h
    rw [Bool.not_eq_true'] at h1
    simp only [parsePlanLines, h1, Bool.false_eq_true, if_false]
    split
    · exact ih _ _ _ h2
    · split
      · exact ih _ _ _ h2
      · exact ih _ _ _ h2

/-- C5: the planner's free-text parser maps the spec's example input to
objective `"Assess X"` and exactly the steps `["Check Y", "Check Z"]`
with the numbering stripped, and on any input none of whose lines starts
with `OBJECTIVE:` the objective defaults to the generic label
`"Security assessment"`. -/
theorem parsePlan_example_and_default :
    (parsePlan "OBJECTIVE: Assess X\nSTEPS:\n1. Check Y\n2. Check Z").objective =
      "Assess X" ∧
    (parsePlan "OBJECTIVE: Assess X\nSTEPS:\n1. Check Y\n2. Check Z").steps =
      ["Check Y", "Check Z"] ∧
    ∀ content : String,
      ((pySplitLines (pyStrip content)).all
        fun l => !(pyStartsWith l "OBJECTIVE:")) = true →
      (parsePlan content).objective = "Security assessment" := by
  refine ⟨by decide, by decide, fun content h => ?_⟩
  simp only [parsePlan, AssessmentPlan.mkPlan]
  rw [parsePlanLines_fst_of_no_objective _ _ _ _ h]
  rfl

/-- Witness for `parsePlan_example_and_default` at a concrete input for
the defaulting clause. -/
theorem parsePlan_example_and_default_witness :
    (parsePlan "just text with no sections").objective =
      "Security assessment" :=
  parsePlan_example_and_default.2.2 "just text with no sections" (by decide)

/-- C3: the phase dispatch `should_continue` agrees with the spec's
priority order on every state — tool calls route to the tools node, else
a complete plan routes to the reporter, else the `"executing"` phase
marker routes to the advance node, else the executor is re-invoked — and
the advance node increments the plan cursor by one and re-enters the
executor. -/
theorem should_continue_matches_spec :
    (∀ (last : Msg) (plan : Option AssessmentPlan) (phase : String),
      should_continue last plan phase = specDispatch last plan phase) ∧
    (∀ (s : AgentState) (p : AssessmentPlan),
      (advance_plan { s with plan := some p }).plan = some p.advance) ∧
    (∀ p : AssessmentPlan, p.advance.current_step = p.current_step + 1) ∧
    (∀ (llm : Nat → Msg) (toolExec : ToolCall → String) (s : AgentState),
      graphStep llm toolExec s .advance = (advance_plan s, .executor)) := by
  refine ⟨fun last plan phase => ?_, fun s p => rfl, fun p => rfl,
    fun llm toolExec s => rfl⟩
  cases last <;> cases plan <;>
    simp [should_continue, specDispatch, planIsComplete, Msg.hasToolCalls,
      Msg.toolCalls]

/-- C2 counterexample: in the mocked end-to-end scenario the final
transcript has 11 entries, not the claimed 10. -/
theorem scenario_transcript_not_ten :
    scenarioRun.1.messages.length = 11 ∧
    scenarioRun.1.messages.length ≠ 10 := by
  have h : scenarioRun.1.messages.length = 11 := by rfl
  exact ⟨h, by omega⟩

set_option maxRecDepth 100000 in
/-- C2 amended: in the mocked scenario the loop invokes the tool exactly
once and the reporter exactly once, drives the plan to completion, and —
because the planner appends only the LLM response (1 entry, not 2) and
the advance node unconditionally re-enters the executor for one more
LLM turn (2 further entries) before `should_continue` routes to the
reporter — the final transcript is exactly the following 11 entries, in
strict append order: objective, plan response, executor prompt 1, tool
request, tool result, executor prompt 2, plain-text response, executor
prompt 3 (step `None`), plain-text response, report prompt, report. -/
theorem scenario_transcript_eleven :
    scenarioRun.1.tool_executions = 1 ∧
    scenarioRun.1.reporter_invocations = 1 ∧
    scenarioRun.1.plan =
      some (AssessmentPlan.mk "List SSH keys" ["find_ssh_keys"] 1 []) ∧
    scenarioRun.1.plan.map AssessmentPlan.is_complete = some true ∧
    scenarioRun.1.phase = "complete" ∧
    scenarioRun.2 = Node.stop ∧
    scenarioRun.1.messages =
      [.human "list SSH keys",
       .ai "OBJECTIVE: List SSH keys\nSTEPS:\n1. find_ssh_keys" [],
       .human (stepPrompt
         (some (AssessmentPlan.mk "List SSH keys" ["find_ssh_keys"] 0 []))),
       .ai "" [ToolCall.mk "find_ssh_keys" []],
       .tool "=== SSH Keys ===\nid_rsa id_rsa.pub",
       .human (stepPrompt
         (some (AssessmentPlan.mk "List SSH keys" ["find_ssh_keys"] 0 []))),
       .ai "Step complete; no further tool calls." [],
       .human (stepPrompt
         (some (AssessmentPlan.mk "List SSH keys" ["find_ssh_keys"] 1 []))),
       .ai "Step complete; no further tool calls." [],
       .human reportPrompt,
       .ai "Step complete; no further tool calls." []] := by
  refine ⟨rfl, rfl, rfl, rfl, rfl, rfl, by decide⟩

end MacAssess
